import Mathlib

/-!
# Verification of the traffic-manager runtime core (`cmd/traffic/cmd/manager/manager.go`)

Shallow embedding of the three supervised tasks started by `Main`:

* the protocol multiplexer (the `httpd` task's handler closure),
* the expiration driver (the `intercept-gc` task), and
* the deletion-propagation pipeline (the `systema-gc` task).

External collaborators (`mgr.systema.Get`/`Done`, `mgr.reapDomain`,
`mgr.reapIntercept`, `mgr.expire`, the watch stream) are opaque calls in the
source file; the embedding records each such call as an `Event` in a trace,
with the call's success or failure drawn from an explicit environment `Env`,
so that the call pattern of the source — which is exactly what the claims
are about — is captured faithfully.
-/

namespace Manager

/-- The fields of an intercept record that `Main` reads:
`update.Value.Id`, `update.Value.ApiKey`, `update.Value.PreviewDomain`. -/
structure InterceptRecord where
  id : String
  apiKey : String
  previewDomain : String
deriving Repr, DecidableEq

/-- One intercept update of a snapshot: `update.Delete` and `update.Value`. -/
structure Update where
  delete : Bool
  value : InterceptRecord
deriving Repr, DecidableEq

/-- One snapshot of the watch stream: `snapshot.Updates`. -/
structure Snapshot where
  updates : List Update
deriving Repr, DecidableEq

/-- Outcomes of the opaque external operations invoked while processing one
update: whether `mgr.systema.Get`, `mgr.reapDomain`, `mgr.reapIntercept` and
the two `mgr.systema.Done` calls return a nil error. -/
structure Env where
  acquireOk : Bool
  reapDomainOk : Bool
  reapInterceptOk : Bool
  doneManagementOk : Bool
  doneProxyOk : Bool
deriving Repr, DecidableEq

/-- One observable call issued by the systema-gc pipeline, tagged with its
call site in the source and the outcome it returned there. -/
inductive Event where
  | acquire (ok : Bool)
  | reapDomain (ok : Bool)
  | reapIntercept (ok : Bool)
  | doneManagement (ok : Bool)
  | doneProxy (ok : Bool)
deriving Repr, DecidableEq

/-- The filter guarding the systema-gc body:
`update.Delete && update.Value.ApiKey != ""`. -/
def qualifies (u : Update) : Bool :=
  u.delete && u.value.apiKey != ""

/-- The body of the inner loop of the systema-gc task, for one update,
as the trace of external calls it issues:

* if the update does not qualify, nothing happens;
* otherwise `mgr.systema.Get` is called; on failure the error is only
  logged; on success, `mgr.reapDomain` is called when
  `update.Value.PreviewDomain != ""`, then `mgr.reapIntercept` is called,
  then the management `mgr.systema.Done`; in either case the body ends
  with the proxy-refcount `mgr.systema.Done`. -/
def processUpdate (env : Env) (u : Update) : List Event :=
  if u.delete && u.value.apiKey != "" then
    (if env.acquireOk then
      [Event.acquire true] ++
        (if u.value.previewDomain != "" then
          [Event.reapDomain env.reapDomainOk]
        else []) ++
        [Event.reapIntercept env.reapInterceptOk,
         Event.doneManagement env.doneManagementOk]
    else
      [Event.acquire false]) ++
    [Event.doneProxy env.doneProxyOk]
  else
    []

/-- Sequential processing of a list of updates; the environment is indexed
by the global position of the update in the stream, so distinct updates may
see distinct call outcomes. -/
def processUpdates (envOf : Nat → Env) : Nat → List Update → List Event
  | _, [] => []
  | i, u :: us => processUpdate (envOf i) u ++ processUpdates envOf (i + 1) us

/-- The outer loop of the systema-gc task over the snapshot stream; the
stream closing is modelled by the list of delivered snapshots ending. -/
def systemaGCLoop (envOf : Nat → Env) : Nat → List Snapshot → List Event
  | _, [] => []
  | i, s :: rest =>
      processUpdates envOf i s.updates ++
        systemaGCLoop envOf (i + s.updates.length) rest

/-- The whole systema-gc task: consumes the delivered snapshots and then
returns nil (`none`); the first component is the trace of external calls. -/
def systemaGC (envOf : Nat → Env) (snaps : List Snapshot) :
    List Event × Option String :=
  (systemaGCLoop envOf 0 snaps, none)

/-- Is the event one of the two external system-of-record calls
(`mgr.reapDomain` or `mgr.reapIntercept`)? -/
def isExternalCall : Event → Bool
  | Event.reapDomain _ => true
  | Event.reapIntercept _ => true
  | _ => false

/-- Is the event a connection-pool release (`mgr.systema.Done`)? -/
def isRelease : Event → Bool
  | Event.doneManagement _ => true
  | Event.doneProxy _ => true
  | _ => false

/-- Is the event a connection-pool acquisition (`mgr.systema.Get`)? -/
def isAcquire : Event → Bool
  | Event.acquire _ => true
  | _ => false

/-- Is the event the `mgr.reapIntercept` call? -/
def isReapIntercept : Event → Bool
  | Event.reapIntercept _ => true
  | _ => false

/-- Number of release operations in a trace. -/
def countRelease (t : List Event) : Nat :=
  (t.filter isRelease).length

/-! ## The expiration driver (the `intercept-gc` task) -/

/-- What the `select` of the intercept-gc loop can observe: a tick of the
ticker (`ticker.C`) or cancellation of the shared context (`ctx.Done()`). -/
inductive GcSignal where
  | tick
  | ctxDone
deriving Repr, DecidableEq

/-- Observable outcome of a finished intercept-gc task: how many times
`mgr.expire()` was invoked, the value returned by the task function
(`none` models a nil error), and whether the deferred `ticker.Stop()` ran. -/
structure GcOutcome where
  expireCalls : Nat
  returned : Option String
  tickerStopped : Bool
deriving Repr, DecidableEq

/-- The ticker period: `time.NewTicker(5 * time.Second)`. -/
def tickerPeriodSeconds : Nat := 5

/-- The intercept-gc loop, run against a sequence of observed signals.
Each tick invokes `mgr.expire()` (whose result is not consumed — `expire`
only gets counted, nothing of it flows into the outcome); the first
`ctxDone` makes the task return nil, running the deferred `ticker.Stop()`.
If the signal sequence ends without cancellation the loop is still
blocked in `select`, modelled by `none`. -/
def interceptGC : List GcSignal → Option GcOutcome
  | [] => none
  | GcSignal.tick :: rest =>
      (interceptGC rest).map fun r => { r with expireCalls := r.expireCalls + 1 }
  | GcSignal.ctxDone :: _ =>
      some { expireCalls := 0, returned := none, tickerStopped := true }

/-- Number of ticks delivered before the first cancellation signal. -/
def ticksBeforeDone : List GcSignal → Nat
  | [] => 0
  | GcSignal.tick :: rest => ticksBeforeDone rest + 1
  | GcSignal.ctxDone :: _ => 0

/-! ## The protocol multiplexer (the `httpd` task's handler closure) -/

/-- The parts of an inbound request the handler closure reads:
`r.ProtoMajor`, `r.Header.Get("Content-Type")` and `r.URL.Path`. -/
structure Request where
  protoMajor : Nat
  contentType : String
  path : String
deriving Repr, DecidableEq

/-- Which handler a request is dispatched to. -/
inductive Handler where
  | grpc
  | plainHTTP
deriving Repr, DecidableEq

/-- The Go standard-library test `strings.HasPrefix(s, p)`, embedded as a
prefix test on the character data of the strings. -/
def stringStartsWith (s p : String) : Bool :=
  p.data.isPrefixOf s.data

/-- The dispatch test of the handler closure:
`r.ProtoMajor == 2 && strings.HasPrefix(r.Header.Get("Content-Type"), "application/grpc")`
selects `grpcHandler.ServeHTTP`, anything else `httpHandler.ServeHTTP`. -/
def route (r : Request) : Handler :=
  if r.protoMajor == 2 && stringStartsWith r.contentType "application/grpc" then
    Handler.grpc
  else
    Handler.plainHTTP

/-- The body written by the plain-HTTP handler:
`fmt.Fprintf(w, "Hello World from: %s\n", r.URL.Path)`. -/
def plainHTTPBody (r : Request) : String :=
  "Hello World from: " ++ r.path ++ "\n"

/-! ## Theorems -/

example :
    processUpdate ⟨true, true, true, true, true⟩
      ⟨true, ⟨"i1", "k1", "d1.example"⟩⟩ =
      [Event.acquire true, Event.reapDomain true, Event.reapIntercept true,
       Event.doneManagement true, Event.doneProxy true] := by decide

example :
    processUpdate ⟨false, true, true, true, true⟩
      ⟨true, ⟨"i1", "k1", "d1.example"⟩⟩ =
      [Event.acquire false, Event.doneProxy true] := by decide

example :
    processUpdate ⟨true, true, true, true, true⟩
      ⟨true, ⟨"i2", "", ""⟩⟩ = [] := by decide

/-- Claim C4: for every update with `Delete = false`, and for every update
with `Delete = true` but empty `apiKey`, the pipeline issues no call at
all: no external calls, no acquisitions, no releases. -/
theorem c4_nonqualifying_update_no_calls (env : Env) (u : Update)
    (h : u.delete = false ∨ u.value.apiKey = "") :
    processUpdate env u = [] := by
  unfold processUpdate
  rcases h with h | h <;> simp [h]

/-- Witness for C4 at two concrete updates, one per disjunct. -/
theorem c4_nonqualifying_update_no_calls_witness :
    processUpdate ⟨true, true, true, true, true⟩ ⟨false, ⟨"i1", "k1", "d1"⟩⟩ = [] ∧
    processUpdate ⟨true, true, true, true, true⟩ ⟨true, ⟨"i2", "", ""⟩⟩ = [] :=
  ⟨c4_nonqualifying_update_no_calls _ _ (Or.inl rfl),
   c4_nonqualifying_update_no_calls _ _ (Or.inr rfl)⟩

/-- Claim C6: for every qualifying update with a successful acquire, the
`reapIntercept` call is issued exactly once, whatever the preview domain is
and however the preceding `reapDomain` call fared. -/
theorem c6_reapIntercept_unconditional (env : Env) (u : Update)
    (hq : qualifies u = true) (ha : env.acquireOk = true) :
    (processUpdate env u).filter isReapIntercept =
      [Event.reapIntercept env.reapInterceptOk] := by
  unfold qualifies at hq
  cases hd : (u.value.previewDomain != "") <;>
    simp [processUpdate, hq, ha, hd, isReapIntercept]

/-- Witness for C6: a qualifying update whose domain removal fails still
gets its `reapIntercept` call. -/
theorem c6_reapIntercept_unconditional_witness :
    (processUpdate ⟨true, false, false, true, true⟩
        ⟨true, ⟨"i1", "k1", "d1.example"⟩⟩).filter isReapIntercept =
      [Event.reapIntercept false] :=
  c6_reapIntercept_unconditional _ _ (by decide) rfl

/-- Claim C3: for every qualifying update with a non-empty preview domain
and a successful acquire, the trace puts the `reapDomain` call (with
whatever outcome it had) strictly before the `reapIntercept` call. -/
theorem c3_reapDomain_before_reapIntercept (env : Env) (u : Update)
    (hq : qualifies u = true) (ha : env.acquireOk = true)
    (hd : (u.value.previewDomain != "") = true) :
    ∃ pre mid post,
      processUpdate env u =
        pre ++ Event.reapDomain env.reapDomainOk ::
          (mid ++ Event.reapIntercept env.reapInterceptOk :: post) := by
  refine ⟨[Event.acquire true], [],
    [Event.doneManagement env.doneManagementOk, Event.doneProxy env.doneProxyOk], ?_⟩
  unfold qualifies at hq
  simp [processUpdate, hq, ha, hd]

/-- Witness for C3 at a concrete qualifying update with a preview domain. -/
theorem c3_reapDomain_before_reapIntercept_witness :
    ∃ pre mid post,
      processUpdate ⟨true, true, true, true, true⟩ ⟨true, ⟨"i1", "k1", "d1.example"⟩⟩ =
        pre ++ Event.reapDomain true :: (mid ++ Event.reapIntercept true :: post) :=
  c3_reapDomain_before_reapIntercept _ _ (by decide) rfl (by decide)

/-- Counterexample to claim C1: at a qualifying update whose acquire fails,
it is not the case that no release is attempted — the body still issues the
proxy `mgr.systema.Done`, so the trace contains a release. -/
theorem c1_failed_acquire_cex :
    qualifies ⟨true, ⟨"i1", "k1", "d1.example"⟩⟩ = true ∧
    Env.acquireOk ⟨false, true, true, true, true⟩ = false ∧
    ¬ ((processUpdate ⟨false, true, true, true, true⟩
          ⟨true, ⟨"i1", "k1", "d1.example"⟩⟩).filter isExternalCall = [] ∧
       (processUpdate ⟨false, true, true, true, true⟩
          ⟨true, ⟨"i1", "k1", "d1.example"⟩⟩).filter isRelease = []) := by
  decide

/-- Claim C1 as amended: for every qualifying update whose acquire fails,
no external call (`reapDomain`, `reapIntercept`) is made and the management
release is not attempted, but the proxy-refcount release is still issued —
the trace is exactly the failed acquire followed by the proxy `Done`. -/
theorem c1_failed_acquire_no_external_calls (env : Env) (u : Update)
    (hq : qualifies u = true) (ha : env.acquireOk = false) :
    (processUpdate env u).filter isExternalCall = [] ∧
    (processUpdate env u).filter isRelease = [Event.doneProxy env.doneProxyOk] ∧
    processUpdate env u = [Event.acquire false, Event.doneProxy env.doneProxyOk] := by
  unfold qualifies at hq
  simp [processUpdate, hq, ha, isExternalCall, isRelease]

/-- Witness for the amended C1 at a concrete qualifying update. -/
theorem c1_failed_acquire_no_external_calls_witness :
    (processUpdate ⟨false, true, true, true, true⟩
        ⟨true, ⟨"i1", "k1", "d1.example"⟩⟩).filter isExternalCall = [] ∧
    (processUpdate ⟨false, true, true, true, true⟩
        ⟨true, ⟨"i1", "k1", "d1.example"⟩⟩).filter isRelease = [Event.doneProxy true] ∧
    processUpdate ⟨false, true, true, true, true⟩ ⟨true, ⟨"i1", "k1", "d1.example"⟩⟩ =
      [Event.acquire false, Event.doneProxy true] :=
  c1_failed_acquire_no_external_calls _ _ (by decide) rfl

/-- Claim C2: for every qualifying update the proxy release is issued
unconditionally — it is the last release of the trace whether or not the
acquire succeeded — so the releases are management-then-proxy when the
acquire succeeds and the proxy release alone when it fails. -/
theorem c2_proxy_release_unconditional (env : Env) (u : Update)
    (hq : qualifies u = true) :
    (processUpdate env u).filter isRelease =
      (if env.acquireOk then
        [Event.doneManagement env.doneManagementOk, Event.doneProxy env.doneProxyOk]
      else
        [Event.doneProxy env.doneProxyOk]) := by
  unfold qualifies at hq
  cases ha : env.acquireOk <;> cases hd : (u.value.previewDomain != "") <;>
    simp [processUpdate, hq, ha, hd, isRelease]

/-- Witness for C2 at a qualifying update, once with the acquire failing
and once with it succeeding. -/
theorem c2_proxy_release_unconditional_witness :
    ((processUpdate ⟨false, true, true, true, true⟩
        ⟨true, ⟨"i1", "k1", "d1.example"⟩⟩).filter isRelease =
      (if (false : Bool) then
        [Event.doneManagement true, Event.doneProxy true]
      else [Event.doneProxy true])) ∧
    ((processUpdate ⟨true, true, true, true, true⟩
        ⟨true, ⟨"i1", "k1", "d1.example"⟩⟩).filter isRelease =
      (if (true : Bool) then
        [Event.doneManagement true, Event.doneProxy true]
      else [Event.doneProxy true])) :=
  ⟨c2_proxy_release_unconditional ⟨false, true, true, true, true⟩ _ (by decide),
   c2_proxy_release_unconditional ⟨true, true, true, true, true⟩ _ (by decide)⟩

/-- Counterexample to claim C5: at a qualifying update whose acquire fails,
the number of releases issued is one, not two. -/
theorem c5_two_releases_cex :
    qualifies ⟨true, ⟨"i1", "k1", "d1.example"⟩⟩ = true ∧
    countRelease (processUpdate ⟨false, true, true, true, true⟩
      ⟨true, ⟨"i1", "k1", "d1.example"⟩⟩) ≠ 2 := by
  decide

/-- Claim C5 as amended: for every qualifying update, exactly two releases
are issued when the acquire succeeds — whatever the outcomes of the
intermediate `reapDomain` and `reapIntercept` calls — and exactly one (the
proxy release) when the acquire fails. -/
theorem c5_release_count (env : Env) (u : Update) (hq : qualifies u = true) :
    countRelease (processUpdate env u) = (if env.acquireOk then 2 else 1) := by
  unfold qualifies at hq
  cases ha : env.acquireOk <;> cases hd : (u.value.previewDomain != "") <;>
    simp [processUpdate, countRelease, hq, ha, hd, isRelease]

/-- Witness for the amended C5: failing intermediate calls, successful
acquire, two releases. -/
theorem c5_release_count_witness :
    countRelease (processUpdate ⟨true, false, false, true, true⟩
      ⟨true, ⟨"i1", "k1", "d1.example"⟩⟩) = (if (true : Bool) then 2 else 1) :=
  c5_release_count ⟨true, false, false, true, true⟩ _ (by decide)

/-- Claim C7: a request is dispatched to the gRPC handler exactly when its
protocol major version is 2 and its Content-Type matches the gRPC test of
the handler closure; everything else goes to the plain-HTTP handler, whose
response body contains the requested path. -/
theorem c7_multiplexer_dispatch (r : Request) :
    (route r = Handler.grpc ↔
      r.protoMajor = 2 ∧ stringStartsWith r.contentType "application/grpc" = true) ∧
    (route r ≠ Handler.grpc → route r = Handler.plainHTTP) ∧
    (∃ pre post, plainHTTPBody r = pre ++ r.path ++ post) := by
  refine ⟨?_, ?_, "Hello World from: ", "\n", rfl⟩
  · unfold route
    split
    · next h =>
        simp only [Bool.and_eq_true, beq_iff_eq] at h
        simp [h]
    · next h =>
        simp only [Bool.and_eq_true, beq_iff_eq] at h
        simp [h]
  · unfold route
    split <;> simp

/-- Claim C8: the Content-Type test is a prefix match — with protocol major
version 2, any Content-Type beginning with "application/grpc" is routed to
the gRPC handler. -/
theorem c8_contentType_prefix_match (r : Request) (h2 : r.protoMajor = 2)
    (hp : stringStartsWith r.contentType "application/grpc" = true) :
    route r = Handler.grpc := by
  simp [route, h2, hp]

/-- Witness for C8 at Content-Type values that begin with but do not equal
"application/grpc". -/
theorem c8_contentType_prefix_match_witness :
    route ⟨2, "application/grpc+proto", "/a"⟩ = Handler.grpc ∧
    route ⟨2, "application/grpc-web", "/a"⟩ = Handler.grpc ∧
    "application/grpc+proto" ≠ "application/grpc" ∧
    "application/grpc-web" ≠ "application/grpc" :=
  ⟨c8_contentType_prefix_match ⟨2, "application/grpc+proto", "/a"⟩ rfl (by decide),
   c8_contentType_prefix_match ⟨2, "application/grpc-web", "/a"⟩ rfl (by decide),
   by decide, by decide⟩

/-- Claim C9: whenever the intercept-gc task finishes, its ticker had the
fixed 5-second period, `mgr.expire` ran once per tick delivered before the
cancellation, the task returned nil, and the deferred `ticker.Stop()` ran. -/
theorem c9_expiration_driver (sigs : List GcSignal) (r : GcOutcome)
    (h : interceptGC sigs = some r) :
    tickerPeriodSeconds = 5 ∧ r.expireCalls = ticksBeforeDone sigs ∧
    r.returned = none ∧ r.tickerStopped = true := by
  refine ⟨rfl, ?_⟩
  induction sigs generalizing r with
  | nil => simp [interceptGC] at h
  | cons s rest ih =>
      cases s with
      | tick =>
          simp only [interceptGC, Option.map_eq_some'] at h
          obtain ⟨r', hr', hfr⟩ := h
          obtain ⟨he, hn, hs⟩ := ih r' hr'
          subst hfr
          simp [ticksBeforeDone, he, hn, hs]
      | ctxDone =>
          simp only [interceptGC, Option.some.injEq] at h
          subst h
          simp [ticksBeforeDone]

/-- Witness for C9: two ticks then cancellation gives two expire calls, a
nil return and a stopped ticker. -/
theorem c9_expiration_driver_witness :
    tickerPeriodSeconds = 5 ∧
    GcOutcome.expireCalls ⟨2, none, true⟩ =
      ticksBeforeDone [GcSignal.tick, GcSignal.tick, GcSignal.ctxDone] ∧
    GcOutcome.returned ⟨2, none, true⟩ = none ∧
    GcOutcome.tickerStopped ⟨2, none, true⟩ = true :=
  c9_expiration_driver [GcSignal.tick, GcSignal.tick, GcSignal.ctxDone]
    ⟨2, none, true⟩ (by decide)

/-- `processUpdates` splits over concatenation of update lists, shifting the
environment index by the length of the first part. -/
theorem processUpdates_append (envOf : Nat → Env) (i : Nat) (a b : List Update) :
    processUpdates envOf i (a ++ b) =
      processUpdates envOf i a ++ processUpdates envOf (i + a.length) b := by
  induction a generalizing i with
  | nil => simp [processUpdates]
  | cons u us ih =>
      simp only [List.cons_append, processUpdates, List.length_cons,
        List.append_assoc, List.append_eq, ih (i + 1)]
      rw [show i + (us.length + 1) = i + 1 + us.length from by omega]

/-- The snapshot loop of the systema-gc task processes exactly the updates
of the delivered snapshots, flattened in delivery order. -/
theorem systemaGCLoop_eq_flat (envOf : Nat → Env) (snaps : List Snapshot)
    (i : Nat) :
    systemaGCLoop envOf i snaps =
      processUpdates envOf i (snaps.map Snapshot.updates).flatten := by
  induction snaps generalizing i with
  | nil => simp [systemaGCLoop, processUpdates]
  | cons s rest ih =>
      simp [systemaGCLoop, processUpdates_append, ih]

/-- Claim C10: whatever the outcomes of the acquires, external calls and
releases at every position of the stream, the systema-gc task returns nil
after processing every update of every delivered snapshot in delivery
order — no per-update failure aborts the task or skips later updates. -/
theorem c10_pipeline_processes_all_updates (envOf : Nat → Env)
    (snaps : List Snapshot) :
    (systemaGC envOf snaps).2 = none ∧
    (systemaGC envOf snaps).1 =
      processUpdates envOf 0 (snaps.map Snapshot.updates).flatten :=
  ⟨rfl, systemaGCLoop_eq_flat envOf snaps 0⟩

end Manager
